import Mathlib

/-!
Shallow embedding of the picotrx4m firmware core (src/lights.rs, src/receiver.rs).

Conventions:
* Machine integers are `Nat`, with an explicit `% 2^w` wherever the Rust code
  can overflow (u32 multiplication in the clock-divisor math, the 16-bit PWM
  counters).
* The RP2040 64-bit timer ticks at 1 MHz, so one tick is one microsecond and
  the 100 ms watchdog threshold of `receiver.rs` is 100000 ticks.
* Hardware handles (pins, PWM slices, the timer peripheral) carry no data in
  the model beyond their presence, so the ownership slots hold `Option Unit`;
  the mutable hardware state they guard (counter values, pending EdgeLow
  flags) is modelled as explicit fields of `RecvState`.
* Interrupt handling and the environment (counter ticks, input edges) are an
  explicit step relation on `RecvState`; a `critical_section::with` body is a
  single atomic step.
-/

namespace Trx4m

/-- Watchdog threshold of `has_watchdog_expired`: 100 ms, in 1 MHz timer ticks
(`MillisDurationU64::millis(100u64)` compared against a microsecond delta). -/
def watchdogThresholdTicks : Nat := 100000

/-- `TimerPair` from receiver.rs: an optional handle to the time source and the
last-update instant (`Instant::from_ticks`, microseconds). -/
structure TimerPair where
  timer : Option Unit
  last_update : Nat
deriving Repr, DecidableEq

/-- `TimerPair::default()`: no timer installed, last update at tick 0. -/
def TimerPair.default : TimerPair := { timer := none, last_update := 0 }

/-- `TimerWatchdog::has_watchdog_expired` on `Mutex<RefCell<TimerPair>>`
(receiver.rs lines 49-62): if a timer is installed, expired iff
`current - last_update > 100 ms` (strict); otherwise always expired.
`current` is the value `timer.get_counter()` returns at the query. -/
def hasWatchdogExpired (p : TimerPair) (current : Nat) : Bool :=
  match p.timer with
  | some _ => decide (watchdogThresholdTicks < current - p.last_update)
  | none => true

/-- The shared state of receiver.rs: the two atomics `STEERING`/`THROTTLE`,
the two PWM input-high counters (16-bit), the three pending `EdgeLow`
interrupt-status flags, the `LAST_UPDATE` pair, the interrupt-local cache
`GLOBALS` and the global handoff slot `GLOBAL_PINS`. -/
structure RecvState where
  steering_atomic : Nat
  throttle_atomic : Nat
  steering_cnt : Nat
  throttle_cnt : Nat
  steering_pending : Bool
  throttle_pending : Bool
  update_pending : Bool
  pair : TimerPair
  globals : Option Unit
  global_pins : Option Unit
deriving Repr, DecidableEq

/-- Boot state: the statics `STEERING`/`THROTTLE` start at 0, `LAST_UPDATE` at
`TimerPair::default()`, `GLOBAL_PINS` empty, the interrupt-local `GLOBALS`
cache empty, counters at their reset value 0 and no pending edge. -/
def RecvState.initial : RecvState :=
  { steering_atomic := 0
    throttle_atomic := 0
    steering_cnt := 0
    throttle_cnt := 0
    steering_pending := false
    throttle_pending := false
    update_pending := false
    pair := TimerPair.default
    globals := none
    global_pins := none }

/-- The `IO_IRQ_BANK0` interrupt handler (receiver.rs lines 68-104), one
invocation at timer instant `now`. First the lazy handoff: if the
interrupt-local cache is empty, take the contents of `GLOBAL_PINS` (leaving it
`None`). Then, if handles are cached, handle each pending `EdgeLow`: read the
channel counter, reset it to 0, clear the flag and publish the count; on the
update pin, record `timer.get_counter()` (= `now`) as `last_update` when a
timer is installed and clear the flag. -/
def ioIrqBank0 (s : RecvState) (now : Nat) : RecvState :=
  let s1 := if s.globals.isNone
    then { s with globals := s.global_pins, global_pins := none }
    else s
  if s1.globals.isSome then
    let s2 := if s1.steering_pending
      then { s1 with steering_atomic := s1.steering_cnt, steering_cnt := 0,
                     steering_pending := false }
      else s1
    let s3 := if s2.throttle_pending
      then { s2 with throttle_atomic := s2.throttle_cnt, throttle_cnt := 0,
                     throttle_pending := false }
      else s2
    if s3.update_pending then
      { s3 with
        pair := { timer := s3.pair.timer,
                  last_update := if s3.pair.timer.isSome then now
                                 else s3.pair.last_update },
        update_pending := false }
    else s3
  else s1

/-- Consumer query `Receiver::steering`: acquire-load of `STEERING`. -/
def Receiver.steering (s : RecvState) : Nat := s.steering_atomic

/-- Consumer query `Receiver::throttle`: acquire-load of `THROTTLE`. -/
def Receiver.throttle (s : RecvState) : Nat := s.throttle_atomic

/-- Consumer query `Receiver::has_watchdog_expired`, forwarding to the
`LAST_UPDATE` pair; `now` is the instant the query reads from the timer. -/
def Receiver.has_watchdog_expired (s : RecvState) (now : Nat) : Bool :=
  hasWatchdogExpired s.pair now

/-- State effect of `initialize_receiver` (receiver.rs lines 161-174): inside
one critical section, `LAST_UPDATE` is replaced by a pair holding the timer
and instant 0, and `GLOBAL_PINS` is filled with the hardware handles. -/
def initialize_receiver (s : RecvState) : RecvState :=
  { s with pair := { timer := some (), last_update := 0 },
           global_pins := some () }

/-- Events of the receiver subsystem after initialization: a hardware tick of
one of the 16-bit input-high counters, a falling edge latching a pending
`EdgeLow` status on one input, or an invocation of the interrupt handler at
timer instant `now`. -/
inductive Ev where
  | tickSteering
  | tickThrottle
  | edgeSteering
  | edgeThrottle
  | edgeUpdate
  | irq (now : Nat)
deriving Repr, DecidableEq

/-- One step of the receiver subsystem. The PWM counters are 16 bit wide and
wrap; a falling edge latches the channel's raw interrupt status. -/
def step (s : RecvState) : Ev → RecvState
  | .tickSteering => { s with steering_cnt := (s.steering_cnt + 1) % 65536 }
  | .tickThrottle => { s with throttle_cnt := (s.throttle_cnt + 1) % 65536 }
  | .edgeSteering => { s with steering_pending := true }
  | .edgeThrottle => { s with throttle_pending := true }
  | .edgeUpdate => { s with update_pending := true }
  | .irq now => ioIrqBank0 s now

/-! Frame model and timing encoder configuration, from src/lights.rs. -/

/-- `FrontLeds` (lights.rs): three u8 channel intensities. -/
structure FrontLeds where
  yellow : Nat
  low_beam : Nat
  high_beam : Nat
deriving Repr, DecidableEq

/-- `impl From<FrontLeds> for u32` (lights.rs lines 79-86): the header byte
0xFF in bits 24-31, then `high_beam`, `low_beam`, `yellow` or-ed into bits
16-23, 8-15, 0-7. -/
def FrontLeds.to_u32 (value : FrontLeds) : Nat :=
  let ret : Nat := 0xFF000000
  let ret := ret ||| (value.high_beam <<< 16)
  let ret := ret ||| (value.low_beam <<< 8)
  ret ||| value.yellow

/-- `RearLeds` (lights.rs): three u8 channel intensities. -/
structure RearLeds where
  yellow : Nat
  white : Nat
  red : Nat
deriving Repr, DecidableEq

/-- `impl From<RearLeds> for u32` (lights.rs lines 95-102): the header byte
0xFF in bits 24-31, then `red`, `white`, `yellow` or-ed into bits 16-23,
8-15, 0-7. -/
def RearLeds.to_u32 (value : RearLeds) : Nat :=
  let ret : Nat := 0xFF000000
  let ret := ret ||| (value.red <<< 16)
  let ret := ret ||| (value.white <<< 8)
  ret ||| value.yellow

/-- `Leds` (lights.rs): the four fixtures. -/
structure Leds where
  front_right : FrontLeds
  front_left : FrontLeds
  rear_right : RearLeds
  rear_left : RearLeds
deriving Repr, DecidableEq

/-- `Tx::write`: push one 32-bit word onto the encoder queue (modelled as the
list of words enqueued so far, oldest first). -/
def tx_write (q : List Nat) (w : Nat) : List Nat := q ++ [w]

/-- `Leds::write` (lights.rs lines 112-124): inside one critical section,
enqueue the four fixture words front-left, front-right, rear-right, rear-left
and then the terminator words 0xFF000000, 0, 42. The critical section makes
the seven `tx.write` calls one atomic step of the queue. -/
def Leds.write (l : Leds) (q : List Nat) : List Nat :=
  tx_write (tx_write (tx_write (tx_write (tx_write (tx_write (tx_write q
    l.front_left.to_u32) l.front_right.to_u32) l.rear_right.to_u32)
    l.rear_left.to_u32) 0xFF000000) 0) 42

/-- The seven words one `Leds::write` call enqueues, in their fixed order:
the four fixture words front-left, front-right, rear-right, rear-left, then
the three terminator words. -/
def frame_words (l : Leds) : List Nat :=
  [l.front_left.to_u32, l.front_right.to_u32, l.rear_right.to_u32,
   l.rear_left.to_u32, 0xFF000000, 0, 42]

/-! Clock-divisor math of `initialize_lights` (lights.rs lines 47-61).
`clocks.system_clock.freq().to_Hz()` is a u32; all arithmetic below is u32
arithmetic, so products are reduced `% 2^32`. -/

/-- The pio program's public define `t1` (high time at start). -/
def t1 : Nat := 8

/-- The pio program's public define `t2` (delta). -/
def t2 : Nat := 6

/-- The pio program's public define `t3` (low time at end). -/
def t3 : Nat := 8

/-- `frequency`: the target protocol bit rate, 871 kHz. -/
def frequency : Nat := 871000

/-- `cycles_per_bit = t1 + t2 + t3`. -/
def cycles_per_bit : Nat := t1 + t2 + t3

/-- `frequency_per_bit = frequency * cycles_per_bit` (no u32 overflow:
871000 * 22 = 19162000 < 2^32). -/
def frequency_per_bit : Nat := frequency * cycles_per_bit

/-- `int_part = system_clock_hz / frequency_per_bit` (u32 division). -/
def int_part (f : Nat) : Nat := f / frequency_per_bit

/-- `remainder = system_clock_hz % frequency_per_bit`. -/
def remainder (f : Nat) : Nat := f % frequency_per_bit

/-- `fract_part = (remainder * 256) / frequency_per_bit`, where the
multiplication is performed in u32 and therefore wraps modulo 2^32. -/
def fract_part (f : Nat) : Nat := (remainder f * 256) % 2 ^ 32 / frequency_per_bit

/-- The serializer configuration `initialize_lights` hands to `PIOBuilder`:
shift direction Right, autopull off, a 24-bit pull threshold, and the clock
divisor `(int_part as u16, fract_part as u8)`. -/
structure PioConfig where
  out_shift_right : Bool
  autopull : Bool
  pull_threshold : Nat
  div_int : Nat
  div_frac : Nat
deriving Repr, DecidableEq

/-- The configuration computed by `initialize_lights` from the system clock
frequency `f` (in Hz, a u32). -/
def initialize_lights (f : Nat) : PioConfig :=
  { out_shift_right := true
    autopull := false
    pull_threshold := 24
    div_int := int_part f % 2 ^ 16
    div_frac := fract_part f % 2 ^ 8 }

/-! Concrete states used by witnesses. -/

/-- A state after `initialize_receiver` with the handles already handed off
to the interrupt context and an update edge pending. -/
def updateEdgeState : RecvState :=
  { RecvState.initial with
    globals := some ()
    update_pending := true
    pair := { timer := some (), last_update := 0 } }

/-- The state right after `initialize_receiver`, before the first interrupt:
empty interrupt-local cache, full `GLOBAL_PINS` slot. -/
def postInitState : RecvState := initialize_receiver RecvState.initial

/-- A state with the handles handed off, both channel edges pending and
nonzero counter values. -/
def bothEdgesState : RecvState :=
  { RecvState.initial with
    globals := some ()
    steering_pending := true
    throttle_pending := true
    steering_cnt := 1200
    throttle_cnt := 50
    steering_atomic := 7
    throttle_atomic := 9 }

/-! Helper lemmas about the interrupt handler. -/

/-- Effect of one handler invocation when the interrupt-local cache already
holds the handles: each pending channel publishes its counter and resets it,
every pending flag ends cleared, and a pending update edge stamps
`last_update` with `now` when a timer is installed. -/
theorem ioIrqBank0_some (s : RecvState) (now : Nat) (hg : s.globals = some ()) :
    ioIrqBank0 s now =
      { s with
        steering_atomic := if s.steering_pending then s.steering_cnt
                           else s.steering_atomic,
        steering_cnt := if s.steering_pending then 0 else s.steering_cnt,
        steering_pending := false,
        throttle_atomic := if s.throttle_pending then s.throttle_cnt
                           else s.throttle_atomic,
        throttle_cnt := if s.throttle_pending then 0 else s.throttle_cnt,
        throttle_pending := false,
        update_pending := false,
        pair := { timer := s.pair.timer,
                  last_update := if s.update_pending && s.pair.timer.isSome
                                 then now else s.pair.last_update } } := by
  rcases s with ⟨sa, ta, sc, tc, sp, tp, up, ⟨tm, lu⟩, g, gp⟩
  subst hg
  cases sp <;> cases tp <;> cases up <;> cases tm <;> rfl

/-- Effect of the first handler invocation: with an empty local cache and a
full global slot, the handles move into the cache and the slot empties. -/
theorem ioIrqBank0_handoff (s : RecvState) (now : Nat) (hg : s.globals = none)
    (hp : s.global_pins = some ()) :
    (ioIrqBank0 s now).globals = some () ∧ (ioIrqBank0 s now).global_pins = none := by
  rcases s with ⟨sa, ta, sc, tc, sp, tp, up, ⟨tm, lu⟩, g, gp⟩
  subst hg; subst hp
  cases sp <;> cases tp <;> cases up <;> cases tm <;> exact ⟨rfl, rfl⟩

/-- No handler invocation ever refills `GLOBAL_PINS`. -/
theorem ioIrqBank0_global_pins_none (s : RecvState) (now : Nat)
    (h : s.global_pins = none) : (ioIrqBank0 s now).global_pins = none := by
  rcases s with ⟨sa, ta, sc, tc, sp, tp, up, ⟨tm, lu⟩, g, gp⟩
  subst h
  cases g <;> cases sp <;> cases tp <;> cases up <;> cases tm <;> rfl

/-- No step of the post-initialization system refills `GLOBAL_PINS`. -/
theorem step_global_pins_none (s : RecvState) (e : Ev)
    (h : s.global_pins = none) : (step s e).global_pins = none := by
  cases e with
  | irq now => exact ioIrqBank0_global_pins_none s now h
  | _ => exact h

/-- `GLOBAL_PINS` stays empty along any event sequence. -/
theorem foldl_step_global_pins_none (evs : List Ev) :
    ∀ s : RecvState, s.global_pins = none →
      (List.foldl step s evs).global_pins = none := by
  induction evs with
  | nil => exact fun s h => h
  | cons e es ih => exact fun s h => ih _ (step_global_pins_none s e h)

/-! Claim theorems: freshness monitor. -/

/-- C1: after an update-pulse falling edge handled at timer instant `T` (the
handler stamps `last_update := T`), and with no further edges,
`has_watchdog_expired` queried at instant `t` returns false when
`t ≤ T + 100 ms` and true when `t > T + 100 ms` (100 ms = 100000 ticks of the
1 MHz timer; the comparison in the code is strict). -/
theorem watchdog_window_after_update_edge (s : RecvState) (T t : Nat)
    (hg : s.globals = some ()) (htm : s.pair.timer = some ())
    (hup : s.update_pending = true) (hTt : T ≤ t) :
    (t ≤ T + 100000 → Receiver.has_watchdog_expired (ioIrqBank0 s T) t = false) ∧
    (T + 100000 < t → Receiver.has_watchdog_expired (ioIrqBank0 s T) t = true) := by
  simp only [Receiver.has_watchdog_expired, ioIrqBank0_some s T hg, hup, htm,
    Option.isSome_some, Bool.and_self, if_true, hasWatchdogExpired,
    watchdogThresholdTicks]
  constructor <;> intro h <;> simp <;> omega

/-- Witness for `watchdog_window_after_update_edge` at the edge instant
`T = 5` and query instant `t = 100005`, the last instant inside the window. -/
theorem watchdog_window_after_update_edge_witness :
    (100005 ≤ 5 + 100000 →
      Receiver.has_watchdog_expired (ioIrqBank0 updateEdgeState 5) 100005 = false) ∧
    (5 + 100000 < 100005 →
      Receiver.has_watchdog_expired (ioIrqBank0 updateEdgeState 5) 100005 = true) :=
  watchdog_window_after_update_edge updateEdgeState 5 100005 rfl rfl rfl (by decide)

/-- C2 counterexample: in the state produced by `initialize_receiver` (time
source installed, no update-pulse edge ever handled), a query at timer
instant 50000 (50 ms) returns false, not true: `last_update` was initialized
to instant 0 and the 50 ms delta does not exceed the 100 ms threshold. -/
theorem watchdog_after_init_counterexample :
    Receiver.has_watchdog_expired (initialize_receiver RecvState.initial) 50000
      = false := by rfl

/-- C2 amended: before any update-pulse edge is handled, if the time source
was never installed `has_watchdog_expired` returns true at every query time;
if it was installed by `initialize_receiver` (which sets `last_update` to
instant 0), the query returns true exactly at instants strictly greater than
100 ms past tick 0, and false at or before. -/
theorem watchdog_before_any_edge (s : RecvState) (t lu : Nat) :
    hasWatchdogExpired { timer := none, last_update := lu } t = true ∧
    Receiver.has_watchdog_expired (initialize_receiver s) t
      = decide (100000 < t) := by
  refine ⟨rfl, ?_⟩
  simp [Receiver.has_watchdog_expired, initialize_receiver, hasWatchdogExpired,
    watchdogThresholdTicks]

/-- C8: whenever the shared `TimerPair` holds no time source,
`has_watchdog_expired` returns true, whatever the stored last-update
instant and the query instant. -/
theorem watchdog_expired_when_no_timer (p : TimerPair) (t : Nat)
    (h : p.timer = none) : hasWatchdogExpired p t = true := by
  simp [hasWatchdogExpired, h]

/-- Witness for `watchdog_expired_when_no_timer` at the boot-state pair and a
nonzero stored instant. -/
theorem watchdog_expired_when_no_timer_witness :
    hasWatchdogExpired { timer := none, last_update := 12345 } 3 = true :=
  watchdog_expired_when_no_timer { timer := none, last_update := 12345 } 3 rfl

/-! Claim theorems: ownership handoff and the empty-handler case. -/

/-- C6: on the first handler invocation with an empty interrupt-local cache
and a full `GLOBAL_PINS` slot, the handles move into the cache, the global
slot becomes empty, and it stays empty after any further sequence of system
events (`initialize_receiver`, the only operation that fills the slot, runs
once at boot, before the interrupt is unmasked, so post-handoff steps range
over `Ev`). -/
theorem handoff_once_global_slot_stays_empty (s : RecvState) (now : Nat)
    (evs : List Ev) (hg : s.globals = none) (hp : s.global_pins = some ()) :
    (ioIrqBank0 s now).globals = some () ∧
    (ioIrqBank0 s now).global_pins = none ∧
    (List.foldl step (ioIrqBank0 s now) evs).global_pins = none := by
  obtain ⟨h1, h2⟩ := ioIrqBank0_handoff s now hg hp
  exact ⟨h1, h2, foldl_step_global_pins_none evs _ h2⟩

/-- Witness for `handoff_once_global_slot_stays_empty`: the post-init state,
a first interrupt at instant 0 and three further events including a second
interrupt. -/
theorem handoff_once_global_slot_stays_empty_witness :
    (ioIrqBank0 postInitState 0).globals = some () ∧
    (ioIrqBank0 postInitState 0).global_pins = none ∧
    (List.foldl step (ioIrqBank0 postInitState 0)
      [Ev.edgeSteering, Ev.irq 7, Ev.tickThrottle]).global_pins = none :=
  handoff_once_global_slot_stays_empty postInitState 0
    [Ev.edgeSteering, Ev.irq 7, Ev.tickThrottle] rfl rfl

/-- C10: a handler invocation finding both the interrupt-local cache and
`GLOBAL_PINS` empty (an interrupt delivered before `initialize_receiver`
stored the handles) leaves the state unchanged: in particular `STEERING`,
`THROTTLE`, the last-update pair and all pending flags are untouched. -/
theorem irq_noop_without_handles (s : RecvState) (now : Nat)
    (hg : s.globals = none) (hp : s.global_pins = none) :
    ioIrqBank0 s now = s := by
  rcases s with ⟨sa, ta, sc, tc, sp, tp, up, ⟨tm, lu⟩, g, gp⟩
  subst hg; subst hp
  rfl

/-- Witness for `irq_noop_without_handles` at the boot state. -/
theorem irq_noop_without_handles_witness :
    ioIrqBank0 RecvState.initial 3 = RecvState.initial :=
  irq_noop_without_handles RecvState.initial 3 rfl rfl

/-! Claim theorems: frame model. -/

/-- Or-ing a value into zeroed low bits is addition. -/
theorem lor_eq_add_of_mod_eq_zero (a b i : Nat) (ha : a % 2 ^ i = 0)
    (hb : b < 2 ^ i) : a ||| b = a + b := by
  obtain ⟨c, rfl⟩ := Nat.dvd_of_mod_eq_zero ha
  exact (Nat.mul_add_lt_is_or hb c).symm

/-- Additive form of the `FrontLeds` serialization for in-range channels. -/
theorem frontLeds_to_u32_eq (v : FrontLeds) (hh : v.high_beam < 256)
    (hl : v.low_beam < 256) (hy : v.yellow < 256) :
    v.to_u32 = 0xFF000000 + v.high_beam * 65536 + v.low_beam * 256 + v.yellow := by
  simp only [FrontLeds.to_u32, Nat.shiftLeft_eq]
  rw [lor_eq_add_of_mod_eq_zero 0xFF000000 (v.high_beam * 2 ^ 16) 24
        (by norm_num) (by omega),
      lor_eq_add_of_mod_eq_zero _ (v.low_beam * 2 ^ 8) 16
        (by omega) (by omega),
      lor_eq_add_of_mod_eq_zero _ v.yellow 8 (by omega) (by omega)]

/-- Additive form of the `RearLeds` serialization for in-range channels. -/
theorem rearLeds_to_u32_eq (v : RearLeds) (hr : v.red < 256)
    (hw : v.white < 256) (hy : v.yellow < 256) :
    v.to_u32 = 0xFF000000 + v.red * 65536 + v.white * 256 + v.yellow := by
  simp only [RearLeds.to_u32, Nat.shiftLeft_eq]
  rw [lor_eq_add_of_mod_eq_zero 0xFF000000 (v.red * 2 ^ 16) 24
        (by norm_num) (by omega),
      lor_eq_add_of_mod_eq_zero _ (v.white * 2 ^ 8) 16
        (by omega) (by omega),
      lor_eq_add_of_mod_eq_zero _ v.yellow 8 (by omega) (by omega)]

/-- C3: for channel bytes in 0..255, both fixture serializations yield a
32-bit word with 0xFF in bits 24-31 and the three channels in bits 16-23,
8-15 and 0-7 (`high_beam`/`red`, `low_beam`/`white`, `yellow`); the
serializers are Lean functions, hence pure and deterministic. -/
theorem color_word_layout (f : FrontLeds) (r : RearLeds)
    (hfy : f.yellow < 256) (hfl : f.low_beam < 256) (hfh : f.high_beam < 256)
    (hry : r.yellow < 256) (hrw : r.white < 256) (hrr : r.red < 256) :
    (f.to_u32 < 2 ^ 32 ∧ f.to_u32 / 2 ^ 24 % 256 = 0xFF ∧
     f.to_u32 / 2 ^ 16 % 256 = f.high_beam ∧
     f.to_u32 / 2 ^ 8 % 256 = f.low_beam ∧ f.to_u32 % 256 = f.yellow) ∧
    (r.to_u32 < 2 ^ 32 ∧ r.to_u32 / 2 ^ 24 % 256 = 0xFF ∧
     r.to_u32 / 2 ^ 16 % 256 = r.red ∧
     r.to_u32 / 2 ^ 8 % 256 = r.white ∧ r.to_u32 % 256 = r.yellow) := by
  rw [frontLeds_to_u32_eq f hfh hfl hfy, rearLeds_to_u32_eq r hrr hrw hry]
  refine ⟨⟨?_, ?_, ?_, ?_, ?_⟩, ⟨?_, ?_, ?_, ?_, ?_⟩⟩ <;> norm_num <;> omega

/-- Witness for `color_word_layout` at concrete channel bytes. -/
theorem color_word_layout_witness :
    (FrontLeds.to_u32 ⟨3, 2, 1⟩ < 2 ^ 32 ∧
     FrontLeds.to_u32 ⟨3, 2, 1⟩ / 2 ^ 24 % 256 = 0xFF ∧
     FrontLeds.to_u32 ⟨3, 2, 1⟩ / 2 ^ 16 % 256 = (FrontLeds.mk 3 2 1).high_beam ∧
     FrontLeds.to_u32 ⟨3, 2, 1⟩ / 2 ^ 8 % 256 = (FrontLeds.mk 3 2 1).low_beam ∧
     FrontLeds.to_u32 ⟨3, 2, 1⟩ % 256 = (FrontLeds.mk 3 2 1).yellow) ∧
    (RearLeds.to_u32 ⟨5, 4, 250⟩ < 2 ^ 32 ∧
     RearLeds.to_u32 ⟨5, 4, 250⟩ / 2 ^ 24 % 256 = 0xFF ∧
     RearLeds.to_u32 ⟨5, 4, 250⟩ / 2 ^ 16 % 256 = (RearLeds.mk 5 4 250).red ∧
     RearLeds.to_u32 ⟨5, 4, 250⟩ / 2 ^ 8 % 256 = (RearLeds.mk 5 4 250).white ∧
     RearLeds.to_u32 ⟨5, 4, 250⟩ % 256 = (RearLeds.mk 5 4 250).yellow) :=
  color_word_layout ⟨3, 2, 1⟩ ⟨5, 4, 250⟩ (by decide) (by decide) (by decide)
    (by decide) (by decide) (by decide)

/-- One frame write appends exactly the seven frame words. -/
theorem Leds.write_eq (l : Leds) (q : List Nat) :
    Leds.write l q = q ++ frame_words l := by
  simp [Leds.write, tx_write, frame_words]

/-- C4: `Leds::write` enqueues exactly 4 + 3 = 7 words, in the fixed order
front-left, front-right, rear-right, rear-left, then the terminator sequence
0xFF000000, 0, 42; and because each write is one critical section (one atomic
step of the queue), any serialization of concurrent frame writers appends
whole frames one after another, never interleaving two frames' words. -/
theorem frame_write_atomic (l : Leds) (q : List Nat) (ls : List Leds) :
    Leds.write l q
      = q ++ [l.front_left.to_u32, l.front_right.to_u32, l.rear_right.to_u32,
              l.rear_left.to_u32, 0xFF000000, 0, 42] ∧
    (Leds.write l q).length = q.length + 7 ∧
    List.foldl (fun acc x => Leds.write x acc) q ls
      = q ++ (ls.map frame_words).flatten := by
  refine ⟨Leds.write_eq l q, by simp [Leds.write_eq, frame_words], ?_⟩
  induction ls generalizing q with
  | nil => simp
  | cons x xs ih =>
      rw [List.foldl_cons, Leds.write_eq, ih, List.map_cons, List.flatten_cons,
        List.append_assoc]

/-! Claim theorems: pulse decoder. -/

/-- Running the steering counter for `n` ticks adds `n` modulo 2^16 and
changes nothing else. -/
theorem foldl_tickSteering (n : Nat) : ∀ s : RecvState, s.steering_cnt < 65536 →
    List.foldl step s (List.replicate n Ev.tickSteering)
      = { s with steering_cnt := (s.steering_cnt + n) % 65536 } := by
  induction n with
  | zero =>
      intro s h
      rw [List.replicate_zero, List.foldl_nil, Nat.add_zero, Nat.mod_eq_of_lt h]
  | succ n ih =>
      intro s h
      rw [List.replicate_succ, List.foldl_cons, ih _ (Nat.mod_lt _ (by norm_num))]
      simp only [step]
      congr 1
      omega

/-- Running the throttle counter for `n` ticks adds `n` modulo 2^16 and
changes nothing else. -/
theorem foldl_tickThrottle (n : Nat) : ∀ s : RecvState, s.throttle_cnt < 65536 →
    List.foldl step s (List.replicate n Ev.tickThrottle)
      = { s with throttle_cnt := (s.throttle_cnt + n) % 65536 } := by
  induction n with
  | zero =>
      intro s h
      rw [List.replicate_zero, List.foldl_nil, Nat.add_zero, Nat.mod_eq_of_lt h]
  | succ n ih =>
      intro s h
      rw [List.replicate_succ, List.foldl_cons, ih _ (Nat.mod_lt _ (by norm_num))]
      simp only [step]
      congr 1
      omega

/-- A handled steering edge publishes the counter value read at the edge. -/
theorem irq_publishes_steering (s : RecvState) (now : Nat)
    (hg : s.globals = some ()) (hp : s.steering_pending = true) :
    Receiver.steering (ioIrqBank0 s now) = s.steering_cnt := by
  rw [Receiver.steering, ioIrqBank0_some s now hg]
  simp [hp]

/-- A handled throttle edge publishes the counter value read at the edge. -/
theorem irq_publishes_throttle (s : RecvState) (now : Nat)
    (hg : s.globals = some ()) (hp : s.throttle_pending = true) :
    Receiver.throttle (ioIrqBank0 s now) = s.throttle_cnt := by
  rw [Receiver.throttle, ioIrqBank0_some s now hg]
  simp [hp]

/-- C5: with the handles cached, a handled falling edge on a channel reads
the channel counter, resets it to 0, clears that channel's pending flag and
publishes the read value to the channel's slot; consequently, starting from
the state a handled edge leaves (counter 0, flag clear), after `N` counter
ticks and a second edge the query still reads the prior value, and reads
exactly `N` right after the second edge's interrupt. -/
theorem pulse_decoder_edge (s : RecvState) (now : Nat) (N : Nat)
    (hg : s.globals = some ()) :
    (s.steering_pending = true →
        (ioIrqBank0 s now).steering_atomic = s.steering_cnt ∧
        (ioIrqBank0 s now).steering_cnt = 0 ∧
        (ioIrqBank0 s now).steering_pending = false) ∧
    (s.throttle_pending = true →
        (ioIrqBank0 s now).throttle_atomic = s.throttle_cnt ∧
        (ioIrqBank0 s now).throttle_cnt = 0 ∧
        (ioIrqBank0 s now).throttle_pending = false) ∧
    (N < 65536 → s.steering_cnt = 0 → s.steering_pending = false →
        Receiver.steering (step (List.foldl step s
            (List.replicate N Ev.tickSteering)) Ev.edgeSteering)
          = Receiver.steering s ∧
        Receiver.steering (step (step (List.foldl step s
            (List.replicate N Ev.tickSteering)) Ev.edgeSteering) (Ev.irq now))
          = N) ∧
    (N < 65536 → s.throttle_cnt = 0 → s.throttle_pending = false →
        Receiver.throttle (step (List.foldl step s
            (List.replicate N Ev.tickThrottle)) Ev.edgeThrottle)
          = Receiver.throttle s ∧
        Receiver.throttle (step (step (List.foldl step s
            (List.replicate N Ev.tickThrottle)) Ev.edgeThrottle) (Ev.irq now))
          = N) := by
  refine ⟨?_, ?_, ?_, ?_⟩
  · intro h
    rw [ioIrqBank0_some s now hg]
    simp [h]
  · intro h
    rw [ioIrqBank0_some s now hg]
    simp [h]
  · intro hN h0 hp
    rw [foldl_tickSteering N s (by omega)]
    refine ⟨by simp [step, Receiver.steering], ?_⟩
    show Receiver.steering (ioIrqBank0
      { s with steering_cnt := (s.steering_cnt + N) % 65536,
               steering_pending := true } now) = N
    rw [irq_publishes_steering
      { s with steering_cnt := (s.steering_cnt + N) % 65536,
               steering_pending := true } now hg rfl]
    show (s.steering_cnt + N) % 65536 = N
    omega
  · intro hN h0 hp
    rw [foldl_tickThrottle N s (by omega)]
    refine ⟨by simp [step, Receiver.throttle], ?_⟩
    show Receiver.throttle (ioIrqBank0
      { s with throttle_cnt := (s.throttle_cnt + N) % 65536,
               throttle_pending := true } now) = N
    rw [irq_publishes_throttle
      { s with throttle_cnt := (s.throttle_cnt + N) % 65536,
               throttle_pending := true } now hg rfl]
    show (s.throttle_cnt + N) % 65536 = N
    omega

/-- Witness for `pulse_decoder_edge` at a state with both edges pending and
counters 1200 and 50 (the end-to-end scenario of the spec). -/
theorem pulse_decoder_edge_witness :
    (bothEdgesState.steering_pending = true →
        (ioIrqBank0 bothEdgesState 0).steering_atomic
          = bothEdgesState.steering_cnt ∧
        (ioIrqBank0 bothEdgesState 0).steering_cnt = 0 ∧
        (ioIrqBank0 bothEdgesState 0).steering_pending = false) ∧
    (bothEdgesState.throttle_pending = true →
        (ioIrqBank0 bothEdgesState 0).throttle_atomic
          = bothEdgesState.throttle_cnt ∧
        (ioIrqBank0 bothEdgesState 0).throttle_cnt = 0 ∧
        (ioIrqBank0 bothEdgesState 0).throttle_pending = false) ∧
    (1200 < 65536 → bothEdgesState.steering_cnt = 0 →
        bothEdgesState.steering_pending = false →
        Receiver.steering (step (List.foldl step bothEdgesState
            (List.replicate 1200 Ev.tickSteering)) Ev.edgeSteering)
          = Receiver.steering bothEdgesState ∧
        Receiver.steering (step (step (List.foldl step bothEdgesState
            (List.replicate 1200 Ev.tickSteering)) Ev.edgeSteering) (Ev.irq 0))
          = 1200) ∧
    (1200 < 65536 → bothEdgesState.throttle_cnt = 0 →
        bothEdgesState.throttle_pending = false →
        Receiver.throttle (step (List.foldl step bothEdgesState
            (List.replicate 1200 Ev.tickThrottle)) Ev.edgeThrottle)
          = Receiver.throttle bothEdgesState ∧
        Receiver.throttle (step (step (List.foldl step bothEdgesState
            (List.replicate 1200 Ev.tickThrottle)) Ev.edgeThrottle) (Ev.irq 0))
          = 1200) :=
  pulse_decoder_edge bothEdgesState 0 1200 rfl

/-- A step that is not a steering edge, on a state with no pending steering
edge, leaves the published steering width and the clear flag alone. -/
theorem step_steering_unchanged (s : RecvState) (e : Ev)
    (hp : s.steering_pending = false) (hne : e ≠ Ev.edgeSteering) :
    (step s e).steering_atomic = s.steering_atomic ∧
    (step s e).steering_pending = false := by
  cases e with
  | edgeSteering => exact absurd rfl hne
  | irq now =>
      rcases s with ⟨sa, ta, sc, tc, sp, tp, up, ⟨tm, lu⟩, g, gp⟩
      subst hp
      cases g <;> cases gp <;> cases tp <;> cases up <;> cases tm <;>
        exact ⟨rfl, rfl⟩
  | tickSteering => exact ⟨rfl, hp⟩
  | tickThrottle => exact ⟨rfl, hp⟩
  | edgeThrottle => exact ⟨rfl, hp⟩
  | edgeUpdate => exact ⟨rfl, hp⟩

/-- A step that is not a throttle edge, on a state with no pending throttle
edge, leaves the published throttle width and the clear flag alone. -/
theorem step_throttle_unchanged (s : RecvState) (e : Ev)
    (hp : s.throttle_pending = false) (hne : e ≠ Ev.edgeThrottle) :
    (step s e).throttle_atomic = s.throttle_atomic ∧
    (step s e).throttle_pending = false := by
  cases e with
  | edgeThrottle => exact absurd rfl hne
  | irq now =>
      rcases s with ⟨sa, ta, sc, tc, sp, tp, up, ⟨tm, lu⟩, g, gp⟩
      subst hp
      cases g <;> cases gp <;> cases sp <;> cases up <;> cases tm <;>
        exact ⟨rfl, rfl⟩
  | tickSteering => exact ⟨rfl, hp⟩
  | tickThrottle => exact ⟨rfl, hp⟩
  | edgeSteering => exact ⟨rfl, hp⟩
  | edgeUpdate => exact ⟨rfl, hp⟩

/-- Along any event sequence with no steering edge, the published steering
width never changes. -/
theorem foldl_steering_unchanged (evs : List Ev) : ∀ s : RecvState,
    s.steering_pending = false → Ev.edgeSteering ∉ evs →
    (List.foldl step s evs).steering_atomic = s.steering_atomic ∧
    (List.foldl step s evs).steering_pending = false := by
  induction evs with
  | nil => exact fun s h _ => ⟨rfl, h⟩
  | cons e es ih =>
      intro s h hm
      have hne : e ≠ Ev.edgeSteering := fun he => hm (he ▸ List.mem_cons_self e es)
      obtain ⟨h1, h2⟩ := step_steering_unchanged s e h hne
      obtain ⟨h3, h4⟩ := ih (step s e) h2 fun hm2 => hm (List.mem_cons_of_mem e hm2)
      exact ⟨h3.trans h1, h4⟩

/-- Along any event sequence with no throttle edge, the published throttle
width never changes. -/
theorem foldl_throttle_unchanged (evs : List Ev) : ∀ s : RecvState,
    s.throttle_pending = false → Ev.edgeThrottle ∉ evs →
    (List.foldl step s evs).throttle_atomic = s.throttle_atomic ∧
    (List.foldl step s evs).throttle_pending = false := by
  induction evs with
  | nil => exact fun s h _ => ⟨rfl, h⟩
  | cons e es ih =>
      intro s h hm
      have hne : e ≠ Ev.edgeThrottle := fun he => hm (he ▸ List.mem_cons_self e es)
      obtain ⟨h1, h2⟩ := step_throttle_unchanged s e h hne
      obtain ⟨h3, h4⟩ := ih (step s e) h2 fun hm2 => hm (List.mem_cons_of_mem e hm2)
      exact ⟨h3.trans h1, h4⟩

/-- C7: at boot the published widths are the default 0 (and
`initialize_receiver` does not touch them); along any event sequence without
an edge on a channel the channel's published width keeps its last value (no
explicit unknown state); and a handled edge publishes the counter value read
at that edge, which subsequent queries return. -/
theorem width_default_and_persistence (s : RecvState) (evs : List Ev)
    (now : Nat) :
    Receiver.steering RecvState.initial = 0 ∧
    Receiver.throttle RecvState.initial = 0 ∧
    Receiver.steering (initialize_receiver s) = Receiver.steering s ∧
    Receiver.throttle (initialize_receiver s) = Receiver.throttle s ∧
    (s.steering_pending = false → Ev.edgeSteering ∉ evs →
      Receiver.steering (List.foldl step s evs) = Receiver.steering s) ∧
    (s.throttle_pending = false → Ev.edgeThrottle ∉ evs →
      Receiver.throttle (List.foldl step s evs) = Receiver.throttle s) ∧
    (s.globals = some () → s.steering_pending = true →
      Receiver.steering (ioIrqBank0 s now) = s.steering_cnt) ∧
    (s.globals = some () → s.throttle_pending = true →
      Receiver.throttle (ioIrqBank0 s now) = s.throttle_cnt) := by
  refine ⟨rfl, rfl, rfl, rfl, ?_, ?_, ?_, ?_⟩
  · exact fun h hm => (foldl_steering_unchanged evs s h hm).1
  · exact fun h hm => (foldl_throttle_unchanged evs s h hm).1
  · intro hg h
    rw [Receiver.steering, ioIrqBank0_some s now hg]
    simp [h]
  · intro hg h
    rw [Receiver.throttle, ioIrqBank0_some s now hg]
    simp [h]

/-! Claim theorems: clock-divisor math. -/

/-- C9 counterexample: at system clock 133 MHz the u32 product
`remainder * 256` overflows, so the fractional divisor the code computes is
16, not the 240 the exact formula
`floor((f mod frequency_per_bit) * 256 / frequency_per_bit)` yields. -/
theorem divisor_fract_counterexample :
    fract_part 133000000 = 16 ∧
    remainder 133000000 * 256 / frequency_per_bit = 240 ∧
    fract_part 133000000 ≠ remainder 133000000 * 256 / frequency_per_bit := by
  refine ⟨by decide, by decide, by decide⟩

/-- C9 amended: one bit period is `t1+t2+t3 = 22` cycles, the pull threshold
is 24 bits, the integer divisor part is `floor(f / (871000 * 22))`, and the
fractional part is `floor(((f mod (871000 * 22)) * 256 mod 2^32) / (871000 *
22))` — the multiplication by 256 is u32 arithmetic and wraps; whenever it
does not overflow (in particular at the reference 125 MHz clock) this equals
the exact `floor(((f mod (871000 * 22)) * 256) / (871000 * 22))`. -/
theorem divisor_math (f : Nat) (hf : f < 2 ^ 32) :
    cycles_per_bit = 22 ∧
    frequency_per_bit = 871000 * 22 ∧
    (initialize_lights f).pull_threshold = 24 ∧
    (initialize_lights f).div_int = f / (871000 * 22) ∧
    (initialize_lights f).div_frac
      = f % (871000 * 22) * 256 % 2 ^ 32 / (871000 * 22) ∧
    (f % (871000 * 22) * 256 < 2 ^ 32 →
      (initialize_lights f).div_frac
        = f % (871000 * 22) * 256 / (871000 * 22)) := by
  refine ⟨rfl, rfl, rfl, ?_, ?_, ?_⟩ <;>
    simp only [initialize_lights, int_part, fract_part, remainder,
      frequency_per_bit, frequency, cycles_per_bit, t1, t2, t3] <;>
    norm_num
  · omega
  · omega
  · intro h
    rw [Nat.mod_eq_of_lt h]
    omega

/-- Witness for `divisor_math` at the RP2040 reference clock of 125 MHz. -/
theorem divisor_math_witness :
    cycles_per_bit = 22 ∧
    frequency_per_bit = 871000 * 22 ∧
    (initialize_lights 125000000).pull_threshold = 24 ∧
    (initialize_lights 125000000).div_int = 125000000 / (871000 * 22) ∧
    (initialize_lights 125000000).div_frac
      = 125000000 % (871000 * 22) * 256 % 2 ^ 32 / (871000 * 22) ∧
    (125000000 % (871000 * 22) * 256 < 2 ^ 32 →
      (initialize_lights 125000000).div_frac
        = 125000000 % (871000 * 22) * 256 / (871000 * 22)) :=
  divisor_math 125000000 (by norm_num)

end Trx4m
